import Mathlib

/- Verification of the multi-source sentiment aggregation pipeline of
`src/agents/sentiment_agent.py` (class `SentimentAgent`).

Modelling conventions:
- Python floats are modelled as exact rationals (`ℚ`); `round(x, 2)` is
  modelled as round-half-to-even after scaling by 100 (`pyRound2`).
- Python dicts keyed by source name are modelled as association lists
  `List (String × SourceScore)`; `dict.get(k, d)` becomes `lookup`/`getD`
  or an explicit case split on the key.
- Structure fields that a given Python dict does not carry are modelled by
  the default values of the structure; fields that can be absent in the input
  payloads are modelled as `Option`.
- `random.uniform` is modelled as an oracle argument supplying the drawn
  value; the CPython scoping failure (referencing the function-local name
  `random` before the branch containing `import random` has run) is
  modelled by threading the imported-flag through the loop and returning
  `Except.error "UnboundLocalError"` where CPython raises.
-/

/-- ASCII lowercasing of one character, as `str.lower()` acts on the
ASCII range (the Korean characters appearing in the keyword lists are
unaffected by `str.lower()`). -/
def lowerChar (c : Char) : Char :=
  if 'A' ≤ c ∧ c ≤ 'Z' then Char.ofNat (c.toNat + 32) else c

/-- Model of Python `str.lower()` on the strings this module handles. -/
def lowerStr (s : String) : String := String.mk (s.data.map lowerChar)

/-- Does the second character list start the first one? -/
def listStarts : List Char → List Char → Bool
  | [], _ => true
  | _ :: _, [] => false
  | a :: as, b :: bs => a == b && listStarts as bs

/-- Is `pat` a contiguous sublist of the first list? -/
def hasSub : List Char → List Char → Bool
  | [], pat => pat.isEmpty
  | c :: rest, pat => listStarts pat (c :: rest) || hasSub rest pat

/-- Model of the Python substring test `pat in hay`. -/
def strContains (hay pat : String) : Bool := hasSub hay.data pat.data

/-- Model of `sum(1 for keyword in kws if keyword in text)`. -/
def countMatches (text : String) (kws : List String) : ℕ :=
  (kws.filter (fun k => strContains text k)).length

/-- Round a rational to the nearest integer, ties to even — the rounding
mode of the Python builtin `round`. -/
def roundHalfEven (y : ℚ) : ℤ :=
  let f := ⌊y⌋
  let r := y - (f : ℚ)
  if r < 1/2 then f
  else if 1/2 < r then f + 1
  else if f % 2 = 0 then f else f + 1

/-- Model of Python `round(x, 2)` (floats taken as exact rationals). -/
def pyRound2 (x : ℚ) : ℚ := ((roundHalfEven (x * 100) : ℤ) : ℚ) / 100

/-- One per-source score dict as produced by the scorers of
`SentimentAgent` (`_analyze_disclosure_sentiment`, `_analyze_news_sentiment`,
`_calculate_social_platform_sentiment`): keys `sentiment`, `confidence`,
`count`, `engagement` (social only), `data_source`.  Dict variants that
omit a key (for example the empty-payload early returns omit `count`)
are modelled by the default value, which no modelled consumer reads. -/
structure SourceScore where
  sentiment : ℚ := 0
  confidence : ℚ := 0
  count : ℕ := 0
  engagement : ℤ := 0
  data_source : String := "MOCK_DATA"
deriving DecidableEq, Repr

/-- The fixed source weighting table `SentimentAgent.source_weights`
together with the lookup default: `self.source_weights.get(source, 0.5)`.
Table: disclosure 1.5, financial 1.2, news 1.0, reddit 0.7,
stocktwits 0.8, twitter 0.6. -/
def weightOf (source : String) : ℚ :=
  if source = "disclosure" then 3/2
  else if source = "financial" then 6/5
  else if source = "news" then 1
  else if source = "reddit" then 7/10
  else if source = "stocktwits" then 4/5
  else if source = "twitter" then 3/5
  else 1/2

/-- The adjusted weight `weight * confidence` of one entry of the
per-source score map, as computed in `_calculate_weighted_sentiment`. -/
def effective_weight (p : String × SourceScore) : ℚ :=
  weightOf p.1 * p.2.confidence

/-- Embedding of `SentimentAgent._calculate_weighted_sentiment`: sum
`sentiment * adjusted_weight` and `adjusted_weight` over the entries,
return the rounded quotient when the weight total is positive and `0.0`
otherwise. -/
def calculate_weighted_sentiment (source_sentiments : List (String × SourceScore)) : ℚ :=
  let total_weighted_score :=
    (source_sentiments.map (fun p => p.2.sentiment * effective_weight p)).sum
  let total_weight := (source_sentiments.map (fun p => effective_weight p)).sum
  if 0 < total_weight then pyRound2 (total_weighted_score / total_weight) else 0

/-- The numerator `Σ sentiment_i × effective_weight_i` of the weighted
average, written as the specification states it. -/
def weightedScoreSum (l : List (String × SourceScore)) : ℚ :=
  (l.map (fun p => p.2.sentiment * effective_weight p)).sum

/-- The denominator `Σ effective_weight_i` of the weighted average,
written as the specification states it. -/
def effectiveWeightSum (l : List (String × SourceScore)) : ℚ :=
  (l.map (fun p => effective_weight p)).sum

/-- Embedding of `SentimentAgent._get_sentiment_label` (labels are the
Korean strings of the source: very positive, positive, neutral, negative,
very negative). -/
def get_sentiment_label (score : ℚ) : String :=
  if 3/5 ≤ score then "매우 긍정적"
  else if 1/5 ≤ score then "긍정적"
  else if -(1/5) ≤ score then "중립적"
  else if -(3/5) ≤ score then "부정적"
  else "매우 부정적"

/-- Embedding of `SentimentAgent._calculate_confidence`: mean of the
per-source confidences plus `min(0.3, n * 0.1)` for `n` map entries,
capped at `1.0`; `0.0` for an empty map. -/
def calculate_confidence (sentiments : List (String × SourceScore)) : ℚ :=
  let confidences := sentiments.map (fun p => p.2.confidence)
  if confidences.isEmpty then 0
  else
    min 1 (confidences.sum / (confidences.length : ℚ)
      + min (3/10) ((sentiments.length : ℚ) * (1/10)))

/-- The ranking key of `_extract_key_factors`:
`abs(x[1].get("sentiment", 0)) * x[1].get("confidence", 0)`. -/
def factorImpact (p : String × SourceScore) : ℚ :=
  |p.2.sentiment| * p.2.confidence

/-- The loop body of `_extract_key_factors`: a templated phrase for a
top-ranked source, emitted only when `abs(sentiment) > 0.3` and only for
the four source names carrying a branch (`disclosure`, `news`, `reddit`,
`stocktwits`); every other source name appends nothing. -/
def factorPhrase (p : String × SourceScore) : Option String :=
  if 3/10 < |p.2.sentiment| then
    if p.1 = "disclosure" then
      some ("공시: " ++ (if 0 < p.2.sentiment then "긍정적" else "부정적") ++ " 내용 다수")
    else if p.1 = "news" then
      some ("뉴스: " ++ (if 0 < p.2.sentiment then "호재" else "악재") ++ " 보도 집중")
    else if p.1 = "reddit" then
      some ("Reddit: " ++ (if 0 < p.2.sentiment then "매수" else "매도") ++ " 심리 우세")
    else if p.1 = "stocktwits" then
      some ("StockTwits: " ++ (if 0 < p.2.sentiment then "강세" else "약세") ++ " 전망")
    else none
  else none

/-- Embedding of `SentimentAgent._extract_key_factors`: stable-sort the
map entries by impact descending (Python `sorted(..., reverse=True)`),
take the first three, emit the qualifying phrases. -/
def extract_key_factors (sentiments : List (String × SourceScore)) : List String :=
  ((sentiments.mergeSort (fun a b => decide (factorImpact b ≤ factorImpact a))).take 3).filterMap
    factorPhrase

/-- One social post dict: `sentiment` (absent or `None` modelled as
`none`), `content`, and the engagement fields `score` and `comments`
(absent keys modelled by the `.get(…, 0)` default `0`). -/
structure Post where
  sentiment : Option ℚ := none
  content : String := ""
  score : ℤ := 0
  comments : ℤ := 0
deriving DecidableEq, Repr

/-- Embedding of `SentimentAgent._quick_sentiment_analysis`: emoji and
keyword counting over the post text. -/
def quick_sentiment_analysis (text : String) : ℚ :=
  let bullish_emojis := ["🚀", "🌙", "💎", "🙌", "📈", "🔥", "💪"]
  let bearish_emojis := ["📉", "🐻", "💔", "😢", "⚠️", "🔻"]
  let bullish_keywords := ["moon", "rocket", "buy", "long", "bullish", "calls"]
  let bearish_keywords := ["crash", "sell", "short", "bearish", "puts", "dump"]
  let bullish_score := countMatches text bullish_emojis + countMatches (lowerStr text) bullish_keywords
  let bearish_score := countMatches text bearish_emojis + countMatches (lowerStr text) bearish_keywords
  if bearish_score < bullish_score then min 1 ((bullish_score : ℚ) * (1/5))
  else if bullish_score < bearish_score then max (-1) (-((bearish_score : ℚ) * (1/5)))
  else 0

/-- The per-post sentiment of `_calculate_social_platform_sentiment`:
the own `sentiment` value of the post when present and not `None`, otherwise
`_quick_sentiment_analysis` of the lowercased content. -/
def postSentimentOf (post : Post) : ℚ :=
  match post.sentiment with
  | some s => s
  | none => quick_sentiment_analysis (lowerStr post.content)

/-- The total engagement `Σ (score + comments)` over a post list. -/
def totalEngagement (posts : List Post) : ℤ :=
  (posts.map (fun p => p.score + p.comments)).sum

/-- Embedding of `SentimentAgent._calculate_social_platform_sentiment`:
empty list short-circuits to the zero score; otherwise the
engagement-weighted average when total engagement is positive, the
unweighted mean otherwise; `data_source` is the hardcoded literal
`"MOCK_DATA"` in both branches. -/
def calculate_social_platform_sentiment (posts : List Post) : SourceScore :=
  match posts with
  | [] => { sentiment := 0, confidence := 0, data_source := "MOCK_DATA" }
  | _ :: _ =>
    let sentiments := posts.map (fun post => (postSentimentOf post, post.score + post.comments))
    let total_engagement := (sentiments.map (fun q => q.2)).sum
    let weighted_sentiment :=
      if 0 < total_engagement then
        (sentiments.map (fun q => q.1 * (q.2 : ℚ))).sum / (total_engagement : ℚ)
      else if sentiments.isEmpty then 0
      else (sentiments.map (fun q => q.1)).sum / (sentiments.length : ℚ)
    { sentiment := pyRound2 weighted_sentiment,
      confidence := pyRound2 (min 1 ((posts.length : ℚ) / 30)),
      count := posts.length,
      engagement := total_engagement,
      data_source := "MOCK_DATA" }

/-- One disclosure record: the scorer reads `report_nm` and `title`
(absent keys default to the empty string via `.get(…, "")`). -/
structure Disclosure where
  report_nm : String := ""
  title : String := ""
deriving DecidableEq, Repr

/-- The disclosure payload dict: `disclosures := none` models a dict
without the `"disclosures"` key, `data_source := none` a dict without
the `"data_source"` key. -/
structure DisclosureData where
  disclosures : Option (List Disclosure) := none
  data_source : Option String := none
deriving DecidableEq, Repr

/-- The positive keyword list of `_analyze_disclosure_sentiment`. -/
def disclosure_positive_keywords : List String :=
  ["증가", "상승", "개선", "신고가", "흑자전환", "실적개선", "성장", "호조", "증익", "배당증가",
   "increase", "rise", "improve", "profit", "growth", "dividend", "beat", "exceed", "strong",
   "확장", "투자", "계약", "파트너십", "신제품", "혁신", "출시",
   "expansion", "investment", "contract", "partnership", "launch", "innovation"]

/-- The negative keyword list of `_analyze_disclosure_sentiment`. -/
def disclosure_negative_keywords : List String :=
  ["감소", "하락", "악화", "적자", "손실", "감액", "부진", "둔화", "적자전환",
   "decrease", "decline", "loss", "deficit", "warning", "cut", "weak", "miss", "below",
   "철수", "중단", "지연", "취소", "구조조정", "리콜", "위험",
   "withdraw", "suspend", "delay", "cancel", "restructure", "recall", "risk"]

/-- The neutral keyword list of `_analyze_disclosure_sentiment`. -/
def disclosure_neutral_variations : List String :=
  ["보고서", "공시", "발표", "안내", "변경", "결정",
   "report", "disclosure", "announce", "notice", "change", "decision"]

/-- One iteration of the scoring loop of `_analyze_disclosure_sentiment`.
`imported` records whether the branch containing the function-local
`import random` statement has executed in this call; the final `else`
branch references `random` and raises `UnboundLocalError` when it has
not.  `jit` stands for the value `random.uniform` returns (in
`[-0.25, 0.25]` in the neutral-keyword branch, `[-0.15, 0.15]` in the
final branch). -/
def disclosureItemSentiment (imported : Bool) (jit : ℚ) (d : Disclosure) :
    Except String (ℚ × Bool) :=
  let title := lowerStr (d.report_nm ++ d.title)
  let pos_count := countMatches title (disclosure_positive_keywords.map lowerStr)
  let neg_count := countMatches title (disclosure_negative_keywords.map lowerStr)
  let neutral_count := countMatches title (disclosure_neutral_variations.map lowerStr)
  if neg_count < pos_count then
    .ok (min (4/5) ((pos_count : ℚ) * (7/10)), imported)
  else if pos_count < neg_count then
    .ok (max (-(4/5)) (-((neg_count : ℚ) * (7/10))), imported)
  else if 0 < neutral_count then
    .ok (jit, true)
  else if imported then .ok (jit, imported)
  else .error "UnboundLocalError"

/-- The scoring loop of `_analyze_disclosure_sentiment` over the (at
most 10) analysed disclosures, threading the imported-flag and
appending `round(sentiment, 2)` per item. -/
def disclosureScores (imported : Bool) (jit : ℕ → ℚ) (idx : ℕ) :
    List Disclosure → Except String (List ℚ)
  | [] => .ok []
  | d :: rest => do
      let (s, imported2) ← disclosureItemSentiment imported (jit idx) d
      let others ← disclosureScores imported2 jit (idx + 1) rest
      .ok (pyRound2 s :: others)

/-- Embedding of `SentimentAgent._analyze_disclosure_sentiment`.  A
`none` input models a falsy `disclosure_data`; a missing
`"disclosures"` key also short-circuits to the zero score.  `jit`
supplies the `random.uniform` draws by item index. -/
def analyze_disclosure_sentiment (disclosure_data : Option DisclosureData) (jit : ℕ → ℚ) :
    Except String SourceScore :=
  match disclosure_data with
  | none => .ok { sentiment := 0, confidence := 0, data_source := "MOCK_DATA" }
  | some dd =>
    match dd.disclosures with
    | none => .ok { sentiment := 0, confidence := 0, data_source := "MOCK_DATA" }
    | some disclosures => do
        let sentiment_scores ← disclosureScores false jit 0 (disclosures.take 10)
        let avg_sentiment :=
          if sentiment_scores.isEmpty then 0
          else sentiment_scores.sum / (sentiment_scores.length : ℚ)
        .ok { sentiment := pyRound2 avg_sentiment,
              confidence := pyRound2 (min 1 ((sentiment_scores.length : ℚ) / 10)),
              count := disclosures.length,
              data_source := dd.data_source.getD "MOCK_DATA" }

/-- One news article record: the scorer reads `title` (absent key
defaults to the empty string). -/
structure Article where
  title : String := ""
deriving DecidableEq, Repr

/-- The news payload dict, with the same `Option` conventions as
`DisclosureData`. -/
structure NewsData where
  articles : Option (List Article) := none
  data_source : Option String := none
deriving DecidableEq, Repr

/-- The positive keyword list of `_analyze_news_sentiment`. -/
def news_positive_keywords : List String :=
  ["상승", "급등", "신고가", "호조", "급반등", "상승세", "고공행진", "9만전자", "8만", "목표가상향",
   "rise", "surge", "high", "rally", "gain", "beat", "exceed", "strong", "outperform",
   "계약", "수주", "투자", "협력", "파트너십", "출시", "개발성공", "혁신",
   "contract", "investment", "partnership", "launch", "breakthrough", "innovation"]

/-- The negative keyword list of `_analyze_news_sentiment`. -/
def news_negative_keywords : List String :=
  ["하락", "급락", "부진", "우려", "위험", "경고", "실망", "부정적", "약세", "매도",
   "fall", "drop", "decline", "concern", "risk", "warning", "disappointing", "weak", "sell",
   "지연", "취소", "중단", "손실", "리콜", "제재", "규제",
   "delay", "cancel", "suspend", "loss", "recall", "sanction", "regulation"]

/-- The mixed keyword table of `_analyze_news_sentiment` with its small
per-keyword deltas. -/
def news_mixed_keywords : List (String × ℚ) :=
  [("기대감", 1/10), ("전망", 1/20), ("관심", 1/20), ("주목", 3/100),
   ("변동", -(1/50)), ("불확실", -(1/20)), ("혼조", 0)]

/-- One iteration of the scoring loop of `_analyze_news_sentiment`:
keyword counts, the mixed-keyword deltas, the special-pattern bonuses
and penalties, then `round(sentiment, 2)`. -/
def newsItemSentiment (a : Article) : ℚ :=
  let title := lowerStr a.title
  let s0 : ℚ := 0
  let pos_matches := countMatches title (news_positive_keywords.map lowerStr)
  let s1 := if 0 < pos_matches then s0 + min 1 ((pos_matches : ℚ) * (4/5)) else s0
  let neg_matches := countMatches title (news_negative_keywords.map lowerStr)
  let s2 := if 0 < neg_matches then s1 - min 1 ((neg_matches : ℚ) * (4/5)) else s1
  let s3 := s2 + ((news_mixed_keywords.filter (fun kv => strContains title kv.1)).map
    (fun kv => kv.2)).sum
  let s4 := if strContains title "9만전자" || strContains title "8만" || strContains title "9만"
    then s3 + 7/10 else s3
  let s5 := if strContains title "7만" then s4 + 1/2 else s4
  let s6 := if strContains title "트럼프" && (strContains title "주식" || strContains title "삼성")
    then s5 - 1/2 else s5
  let s7 := if strContains title "순매수" || strContains title "매수" then s6 + 3/5 else s6
  let s8 := if strContains title "매도" || strContains title "급락" then s7 - 3/5 else s7
  let s9 := if strContains title "실적" && (strContains title "호조" || strContains title "성장")
    then s8 + 3/5 else s8
  let s10 := if strContains title "배당" || strContains title "주주환원" then s9 + 1/2 else s9
  let s11 := if strContains title "목표가" && strContains title "상향" then s10 + 7/10 else s10
  pyRound2 s11

/-- Embedding of `SentimentAgent._analyze_news_sentiment` (at most 15
articles are analysed; the keyword scan has no neutral-jitter branch
and no clamp of the accumulated per-item sentiment). -/
def analyze_news_sentiment (news_data : Option NewsData) : SourceScore :=
  match news_data with
  | none => { sentiment := 0, confidence := 0, data_source := "MOCK_DATA" }
  | some nd =>
    match nd.articles with
    | none => { sentiment := 0, confidence := 0, data_source := "MOCK_DATA" }
    | some articles =>
      let sentiment_scores := (articles.take 15).map newsItemSentiment
      let avg_sentiment :=
        if sentiment_scores.isEmpty then 0
        else sentiment_scores.sum / (sentiment_scores.length : ℚ)
      { sentiment := pyRound2 avg_sentiment,
        confidence := pyRound2 (min 1 ((sentiment_scores.length : ℚ) / 15)),
        count := articles.length,
        data_source := nd.data_source.getD "MOCK_DATA" }

/-- The canned template of `_get_default_analysis` for `sentiment >= 0.5`. -/
def recommendation_strong_buy : String := "📊 **투자 분석 요약**

🟢 **현재 상태: 강한 매수 신호**
시장 심리가 매우 긍정적이며, 상승 모멘텀이 강합니다.

💰 **실행 가능한 투자 전략**
• 매수 시점: 오늘 종가 기준 -2% 하락 시 (지정가 매수)
• 목표 수익률: +8~12% (2-3주 내)
• 손절 기준: 매수가 대비 -3%
• 추천 비중: 포트폴리오의 5~10%

📈 **주요 관찰 지표**
• 거래량: 평균 대비 150% 이상 유지 시 추가 상승 가능
• 외국인/기관 순매수 지속 여부
• 업종 내 상대 강도 (동종업계 대비 성과)

⚡ **즉시 행동 사항**
1. 증권사 앱에서 조건부 매수 주문 설정
2. 관련 뉴스 알림 설정 (주요 키워드: 실적, 목표가, 계약)
3. 일일 종가 기록하여 추세 확인"

/-- The canned template of `_get_default_analysis` for `sentiment >= 0.2`. -/
def recommendation_moderate_buy : String := "📊 **투자 분석 요약**

🟡 **현재 상태: 온건한 매수 기회**
긍정적 흐름이지만 급등보다는 안정적 상승 예상됩니다.

💰 **실행 가능한 투자 전략**
• 분할 매수: 3회 분할 (오늘 30%, 3일 후 30%, 1주 후 40%)
• 목표 수익률: +5~8% (1개월 내)
• 리스크 관리: 평균 매수가 대비 -5% 손절
• 추천 비중: 포트폴리오의 3~7%

📊 **중요 확인 사항**
• 다음 실적 발표일: 확인 필요
• 52주 고점 대비 현재가 위치
• PER/PBR 업종 평균 대비 비교

⚡ **주간 체크리스트**
□ 매일 종가 및 거래량 체크
□ 주요 공시 확인 (매일 오후 6시)
□ 경쟁사 주가 동향 비교"

/-- The canned template of `_get_default_analysis` for `sentiment >= -0.2`. -/
def recommendation_hold : String := "📊 **투자 분석 요약**

⚪ **현재 상태: 관망 권장**
뚜렷한 방향성이 없어 추가 신호를 기다려야 합니다.

🔍 **대기 중 관찰 사항**
• 돌파 신호: 20일 이동평균선 상향 돌파 + 거래량 급증
• 지지선: 최근 저점 확인하여 하방 리스크 파악
• 촉매제: 신제품 출시, 실적 발표, 업계 호재 등

📋 **현재 보유 중이라면**
• 현 상태 유지하되 추가 매수 보류
• 수익 중: 일부 익절하여 현금 확보
• 손실 중: 손절선 재설정 (-7~10%)

⏳ **일주일 내 결정 포인트**
1. 주요 기술적 지표 확인 (RSI, MACD)
2. 업종 지수 대비 상대 성과
3. 외국인/기관 매매 동향 변화"

/-- The canned template of `_get_default_analysis` for `sentiment >= -0.5`. -/
def recommendation_caution : String := "📊 **투자 분석 요약**

🟠 **현재 상태: 주의 필요**
부정적 신호가 우세하여 방어적 접근이 필요합니다.

⚠️ **리스크 관리 우선**
• 신규 매수: 전면 보류
• 기존 보유: 비중 축소 고려 (50% 이하로)
• 관찰 기간: 최소 2주 이상
• 대안: 현금 보유 또는 안전자산 전환

📉 **하락 시나리오 대비**
• 1차 지지선: 최근 저점 -5%
• 2차 지지선: 52주 최저가
• 최악 시나리오: -15~20% 추가 하락

💡 **역발상 기회 포착**
□ 과매도 구간 진입 시 (RSI 30 이하)
□ 거래량 동반한 반등 신호
□ 악재 소진 후 저가 매수 기회"

/-- The canned template of `_get_default_analysis` for the remaining
(most negative) bucket. -/
def recommendation_risk : String := "📊 **투자 분석 요약**

🔴 **현재 상태: 위험 신호**
강한 하락 압력으로 즉각적인 대응이 필요합니다.

🚨 **긴급 대응 방안**
• 보유 중: 즉시 50% 이상 손절 실행
• 추가 하락 대비: -20% 이상 하락 가능성
• 대안 투자: 국채, 금, 달러 등 안전자산

⛔ **절대 하지 말아야 할 것**
• 물타기 (평균가 낮추기)
• 단기 반등 노린 역매수
• 신용/미수 거래

📅 **회복 시그널 (최소 1개월 후)**
1. 거래량 증가와 함께 저점 확인
2. 주요 악재 해소 뉴스
3. 기관/외국인 순매수 전환
4. 기술적 반등 신호 (이격도 과매도)"

/-- The dict `_get_ai_analysis` / `_get_default_analysis` return:
`recommendation`, `ai_confidence`, `data_source`. -/
structure AiAnalysis where
  recommendation : String
  ai_confidence : ℚ
  data_source : String
deriving DecidableEq, Repr

/-- Embedding of `SentimentAgent._get_default_analysis`: select one of
the five canned templates by the cut points `0.5`, `0.2`, `-0.2`,
`-0.5` on the given sentiment; `ai_confidence` is `0.5` and
`data_source` is `"MOCK_DATA"`. -/
def get_default_analysis (sentiment : ℚ) : AiAnalysis :=
  { recommendation :=
      if 1/2 ≤ sentiment then recommendation_strong_buy
      else if 1/5 ≤ sentiment then recommendation_moderate_buy
      else if -(1/5) ≤ sentiment then recommendation_hold
      else if -(1/2) ≤ sentiment then recommendation_caution
      else recommendation_risk,
    ai_confidence := 1/2,
    data_source := "MOCK_DATA" }

/-- Embedding of the `except` branch of `SentimentAgent._get_ai_analysis`:
on a delegate failure the code calls
`self._get_default_analysis(sentiments.get("overall_sentiment", 0.0))`,
where `sentiments` is the per-source score map.  When that key is absent
(it is never inserted by `analyze_sentiment`) the default `0.0` is used;
were it ever present its value would be a score dict and the comparisons
inside `_get_default_analysis` would raise a `TypeError`, modelled here
as the error case. -/
def get_ai_analysis_on_failure (sentiments : List (String × SourceScore)) :
    Except String AiAnalysis :=
  match sentiments.lookup "overall_sentiment" with
  | some _ => .error "TypeError"
  | none => .ok (get_default_analysis 0)

/-- Spec-side definition (from the words of the claim, for comparison with
`get_default_analysis`): template selection keyed by the same five
thresholds as the label mapping of `_get_sentiment_label`, that is the
cut points `0.6`, `0.2`, `-0.2`, `-0.6`. -/
def labelThresholdRecommendation (s : ℚ) : String :=
  if 3/5 ≤ s then recommendation_strong_buy
  else if 1/5 ≤ s then recommendation_moderate_buy
  else if -(1/5) ≤ s then recommendation_hold
  else if -(3/5) ≤ s then recommendation_caution
  else recommendation_risk

/-- Every weight the table lookup can return is positive (the six table
entries and the `0.5` default). -/
theorem weightOf_pos (s : String) : 0 < weightOf s := by
  unfold weightOf
  split_ifs <;> norm_num

/-- Under nonnegative per-source confidences every effective weight is
nonnegative, hence so is their sum. -/
theorem effectiveWeightSum_nonneg (l : List (String × SourceScore))
    (hc : ∀ p ∈ l, 0 ≤ p.2.confidence) : 0 ≤ effectiveWeightSum l := by
  refine List.sum_nonneg ?_
  intro x hx
  obtain ⟨p, hp, rfl⟩ := List.mem_map.mp hx
  exact mul_nonneg (weightOf_pos p.1).le (hc p hp)

/-- C5 (confirmed): the label mapping of `_get_sentiment_label` is total
with boundaries inclusive on the lower bound: `s ≥ 0.6` maps to very
positive, `0.2 ≤ s < 0.6` to positive, `-0.2 ≤ s < 0.2` to neutral,
`-0.6 ≤ s < -0.2` to negative, `s < -0.6` to very negative, and every
score receives one of the five labels. -/
theorem C5_label_mapping (s : ℚ) :
    (3/5 ≤ s → get_sentiment_label s = "매우 긍정적") ∧
    (1/5 ≤ s → s < 3/5 → get_sentiment_label s = "긍정적") ∧
    (-(1/5) ≤ s → s < 1/5 → get_sentiment_label s = "중립적") ∧
    (-(3/5) ≤ s → s < -(1/5) → get_sentiment_label s = "부정적") ∧
    (s < -(3/5) → get_sentiment_label s = "매우 부정적") ∧
    get_sentiment_label s ∈ ["매우 긍정적", "긍정적", "중립적", "부정적", "매우 부정적"] := by
  unfold get_sentiment_label
  split_ifs <;> refine ⟨?_, ?_, ?_, ?_, ?_, ?_⟩ <;> intros <;>
    first | rfl | linarith | simp

/-- Witness for C5: a one-source set producing exactly `0.6` is labeled
very positive, and the score `0.5999` is labeled positive. -/
theorem C5_label_witness :
    calculate_weighted_sentiment [("disclosure", { sentiment := 3/5, confidence := 1 })] = 3/5 ∧
    get_sentiment_label (3/5) = "매우 긍정적" ∧
    get_sentiment_label (5999/10000) = "긍정적" := by
  refine ⟨?_, (C5_label_mapping (3/5)).1 (le_refl _),
    (C5_label_mapping (5999/10000)).2.1 (by norm_num) (by norm_num)⟩
  norm_num [calculate_weighted_sentiment, effective_weight, weightOf, pyRound2, roundHalfEven]

/-- C10 (confirmed): the social-platform scorer tags every score it
returns, for an empty or a nonempty post list, with the hardcoded
provenance `data_source = "MOCK_DATA"`. -/
theorem C10_social_mock_tag (posts : List Post) :
    (calculate_social_platform_sentiment posts).data_source = "MOCK_DATA" := by
  cases posts <;> rfl

/-- Witness for C10: the tag at the empty post list. -/
theorem C10_social_mock_tag_witness :
    (calculate_social_platform_sentiment []).data_source = "MOCK_DATA" :=
  C10_social_mock_tag []

/-- Counterexample for C9: on the disclosure score `(0.8, 0.9)` plus
news score `(-0.2, 0.5)` the code does not return the exact weighted
average `(0.8×1.35 + (-0.2)×0.5)/(1.35+0.5)` the claim states (whose
value is `0.98/1.85`, not the claimed `≈ 0.541`). -/
theorem C9_counterexample :
    calculate_weighted_sentiment
        [("disclosure", { sentiment := 4/5, confidence := 9/10 }),
         ("news", { sentiment := -(1/5), confidence := 1/2 })] ≠
      ((4/5) * ((3/2) * (9/10)) + (-(1/5)) * (1 * (1/2))) / ((3/2) * (9/10) + 1 * (1/2)) := by
  simp [calculate_weighted_sentiment, effective_weight, weightOf]
  norm_num [pyRound2, roundHalfEven]

/-- C9 (corrected): on that input the effective weights are `1.35` and
`0.5`, the exact weighted average is `0.98/1.85`, the returned overall
sentiment is its two-decimal rounding `0.53`, and the label is
positive. -/
theorem C9_example :
    effective_weight ("disclosure", { sentiment := 4/5, confidence := 9/10 }) = 27/20 ∧
    effective_weight ("news", { sentiment := -(1/5), confidence := 1/2 }) = 1/2 ∧
    calculate_weighted_sentiment
        [("disclosure", { sentiment := 4/5, confidence := 9/10 }),
         ("news", { sentiment := -(1/5), confidence := 1/2 })]
      = pyRound2 ((98/100) / (185/100)) ∧
    calculate_weighted_sentiment
        [("disclosure", { sentiment := 4/5, confidence := 9/10 }),
         ("news", { sentiment := -(1/5), confidence := 1/2 })] = 53/100 ∧
    get_sentiment_label (53/100) = "긍정적" := by
  simp only [calculate_weighted_sentiment, effective_weight, weightOf, get_sentiment_label]
  simp
  norm_num [pyRound2, roundHalfEven]

/-- Counterexample for C1: for the one-source map carrying sentiment
`1/3` at confidence `1` the code returns the two-decimal rounding
`0.33`, not the exact weighted average `1/3` the claim states. -/
theorem C1_counterexample :
    weightedScoreSum [("news", { sentiment := 1/3, confidence := 1 })] /
        effectiveWeightSum [("news", { sentiment := 1/3, confidence := 1 })] = 1/3 ∧
    calculate_weighted_sentiment [("news", { sentiment := 1/3, confidence := 1 })] = 33/100 ∧
    (33/100 : ℚ) ≠ 1/3 := by
  simp [calculate_weighted_sentiment, weightedScoreSum, effectiveWeightSum,
    effective_weight, weightOf]
  norm_num [pyRound2, roundHalfEven]

/-- C1 (corrected): for every per-source score map with nonnegative
confidences, the overall sentiment is `0.0` when
`Σ table_weight_i × confidence_i` is zero (no sources present or all
present sources at confidence `0`), and otherwise it is the weighted
average `Σ(sentiment_i × effective_weight_i) / Σ(effective_weight_i)`
rounded to two decimal places. -/
theorem C1_weighted_average (l : List (String × SourceScore))
    (hc : ∀ p ∈ l, 0 ≤ p.2.confidence) :
    (effectiveWeightSum l = 0 → calculate_weighted_sentiment l = 0) ∧
    (effectiveWeightSum l ≠ 0 →
      calculate_weighted_sentiment l = pyRound2 (weightedScoreSum l / effectiveWeightSum l)) := by
  have hnn := effectiveWeightSum_nonneg l hc
  constructor
  · intro h0
    unfold calculate_weighted_sentiment
    rw [if_neg]
    rw [show (l.map (fun p => effective_weight p)).sum = effectiveWeightSum l from rfl, h0]
    exact lt_irrefl 0
  · intro hne
    unfold calculate_weighted_sentiment weightedScoreSum effectiveWeightSum at *
    rw [if_pos (lt_of_le_of_ne hnn (Ne.symm hne))]

/-- Witness for C1: the formula case of `C1_weighted_average` at the
concrete one-source map of sentiment `1/3`, confidence `1`. -/
theorem C1_weighted_average_witness :
    calculate_weighted_sentiment [("news", { sentiment := 1/3, confidence := 1 })] =
      pyRound2 (weightedScoreSum [("news", { sentiment := 1/3, confidence := 1 })] /
        effectiveWeightSum [("news", { sentiment := 1/3, confidence := 1 })]) := by
  refine (C1_weighted_average _ ?_).2 ?_
  · intro p hp
    simp only [List.mem_singleton] at hp
    subst hp
    norm_num
  · simp [effectiveWeightSum, effective_weight, weightOf]

/-- Counterexample for C4: at overall sentiment `0.55` the template the
code returns is the top (very positive) one, while selection by the
thresholds of the label mapping — as the claim states — would return the
positive-bucket template; the two selectors disagree. -/
theorem C4_counterexample :
    (get_default_analysis (11/20)).recommendation ≠ labelThresholdRecommendation (11/20) ∧
    get_sentiment_label (11/20) = "긍정적" := by
  constructor
  · norm_num [get_default_analysis, labelThresholdRecommendation]
    decide
  · norm_num [get_sentiment_label]

/-- C4 (corrected): with no generative-text delegate configured the
recommendation is one of the five canned templates selected by the cut
points `0.5`, `0.2`, `-0.2`, `-0.5` (not the `0.6` and
`-0.6`) applied to the computed overall sentiment; and when a
configured delegate call fails, the fallback reads
`"overall_sentiment"` out of the per-source score map — a key that map
never carries — so it buckets the default `0.0` and returns the neutral
template regardless of the computed overall sentiment. -/
theorem C4_fallback_selection :
    (∀ s : ℚ, 1/2 ≤ s →
      (get_default_analysis s).recommendation = recommendation_strong_buy) ∧
    (∀ s : ℚ, 1/5 ≤ s → s < 1/2 →
      (get_default_analysis s).recommendation = recommendation_moderate_buy) ∧
    (∀ s : ℚ, -(1/5) ≤ s → s < 1/5 →
      (get_default_analysis s).recommendation = recommendation_hold) ∧
    (∀ s : ℚ, -(1/2) ≤ s → s < -(1/5) →
      (get_default_analysis s).recommendation = recommendation_caution) ∧
    (∀ s : ℚ, s < -(1/2) →
      (get_default_analysis s).recommendation = recommendation_risk) ∧
    (∀ sentiments : List (String × SourceScore),
      sentiments.lookup "overall_sentiment" = none →
      get_ai_analysis_on_failure sentiments = .ok (get_default_analysis 0) ∧
      (get_default_analysis (0 : ℚ)).recommendation = recommendation_hold) := by
  refine ⟨?_, ?_, ?_, ?_, ?_, ?_⟩
  · intro s h
    unfold get_default_analysis
    split_ifs <;> first | rfl | linarith
  · intro s h h2
    unfold get_default_analysis
    split_ifs <;> first | rfl | linarith
  · intro s h h2
    unfold get_default_analysis
    split_ifs <;> first | rfl | linarith
  · intro s h h2
    unfold get_default_analysis
    split_ifs <;> first | rfl | linarith
  · intro s h
    unfold get_default_analysis
    split_ifs <;> first | rfl | linarith
  · intro l hl
    unfold get_ai_analysis_on_failure
    rw [hl]
    refine ⟨rfl, ?_⟩
    norm_num [get_default_analysis]

/-- Witness for C4: the unconfigured path at sentiment `0.55` yields the
top template, and the failure path on the empty per-source map yields
the neutral analysis. -/
theorem C4_fallback_witness :
    (get_default_analysis (11/20)).recommendation = recommendation_strong_buy ∧
    get_ai_analysis_on_failure [] = .ok (get_default_analysis 0) :=
  ⟨C4_fallback_selection.1 (11/20) (by norm_num),
   (C4_fallback_selection.2.2.2.2.2 [] rfl).1⟩

/-- C7 (confirmed): for a nonempty per-source map with distinct source
names and confidences in `[0, 1]`, the aggregate confidence is the mean
of the per-source confidences plus `0.1` per present source capped at
`0.3`, the sum capped at `1`, and the result lies in `[0, 1]`; the
empty map yields `0.0`. -/
theorem C7_confidence (l : List (String × SourceScore))
    (hk : (l.map Prod.fst).Nodup)
    (hc : ∀ p ∈ l, 0 ≤ p.2.confidence ∧ p.2.confidence ≤ 1) :
    (l ≠ [] →
      calculate_confidence l =
        min 1 ((l.map (fun p => p.2.confidence)).sum / (l.length : ℚ)
          + min (3/10) ((l.length : ℚ) * (1/10))) ∧
      0 ≤ calculate_confidence l ∧ calculate_confidence l ≤ 1) ∧
    calculate_confidence [] = 0 := by
  refine ⟨?_, rfl⟩
  intro hne
  have hform : calculate_confidence l =
      min 1 ((l.map (fun p => p.2.confidence)).sum / (l.length : ℚ)
        + min (3/10) ((l.length : ℚ) * (1/10))) := by
    unfold calculate_confidence
    rw [if_neg (by simp [hne])]
    simp [List.length_map]
  refine ⟨hform, ?_, ?_⟩
  · rw [hform]
    have hlen : (0 : ℚ) < (l.length : ℚ) := by
      have : 0 < l.length := List.length_pos.mpr hne
      exact_mod_cast this
    have hsum : 0 ≤ (l.map (fun p => p.2.confidence)).sum := by
      refine List.sum_nonneg ?_
      intro x hx
      obtain ⟨p, hp, rfl⟩ := List.mem_map.mp hx
      exact (hc p hp).1
    refine le_min (by norm_num) ?_
    have hb : (0 : ℚ) ≤ min (3/10) ((l.length : ℚ) * (1/10)) :=
      le_min (by norm_num) (by positivity)
    have := div_nonneg hsum hlen.le
    linarith
  · rw [hform]
    exact min_le_left _ _

/-- C3 (code bug): the disclosure scorer raises on a disclosure whose
title matches no keyword at all.  The `import random` statement sits
inside the neutral-keyword branch, so when the first item falls through
to the final branch CPython raises `UnboundLocalError` on the reference
to `random`, and nothing catches it on the way to the caller — the
claims that the scorers never raise and that the public contract is
total are false of the code. -/
theorem C3_disclosure_scorer_raises :
    analyze_disclosure_sentiment
        (some { disclosures := some [{ report_nm := "xyz" }] }) (fun _ => 0) =
      Except.error "UnboundLocalError" := by
  rfl

/-- The single-article news payload titled `"9만전자"` scores
`0.8 + 0.7 = 1.5` for that article: the title is itself a positive
keyword (one match, `+min(1.0, 0.8)`) and also triggers the
`"9만전자"/"8만"/"9만"` special-pattern bonus of `+0.7`, and the scorer
applies no clamp. -/
theorem newsItemSentiment_nine : newsItemSentiment { title := "9만전자" } = 3/2 := by
  have hp : countMatches (lowerStr "9만전자") (news_positive_keywords.map lowerStr) = 1 := by
    decide
  have hn : countMatches (lowerStr "9만전자") (news_negative_keywords.map lowerStr) = 0 := by
    decide
  have hm : news_mixed_keywords.filter
      (fun kv => strContains (lowerStr "9만전자") kv.1) = [] := by decide
  have hc1 : strContains (lowerStr "9만전자") "9만전자" = true := by decide
  have hc2 : strContains (lowerStr "9만전자") "7만" = false := by decide
  have hc3 : strContains (lowerStr "9만전자") "트럼프" = false := by decide
  have hc4 : strContains (lowerStr "9만전자") "순매수" = false := by decide
  have hc5 : strContains (lowerStr "9만전자") "매수" = false := by decide
  have hc6 : strContains (lowerStr "9만전자") "매도" = false := by decide
  have hc7 : strContains (lowerStr "9만전자") "급락" = false := by decide
  have hc8 : strContains (lowerStr "9만전자") "실적" = false := by decide
  have hc9 : strContains (lowerStr "9만전자") "배당" = false := by decide
  have hc10 : strContains (lowerStr "9만전자") "주주환원" = false := by decide
  have hc11 : strContains (lowerStr "9만전자") "목표가" = false := by decide
  simp only [newsItemSentiment]
  norm_num [hp, hn, hm, hc1, hc2, hc3, hc4, hc5, hc6, hc7, hc8, hc9, hc10, hc11,
    pyRound2, roundHalfEven]

/-- The full news score for that single-article payload. -/
theorem analyze_news_sentiment_nine :
    analyze_news_sentiment (some { articles := some [{ title := "9만전자" }] }) =
      { sentiment := 3/2, confidence := 7/100, count := 1, engagement := 0,
        data_source := "MOCK_DATA" } := by
  simp only [analyze_news_sentiment]
  rw [show ([({ title := "9만전자" } : Article)].take 15) = [{ title := "9만전자" }] from rfl]
  simp [newsItemSentiment_nine]
  norm_num [pyRound2, roundHalfEven, min_def]

/-- C2 (code bug): the range invariant fails.  A news payload with the
single article `"9만전자"` produces a per-source sentiment of `1.5`,
outside `[-1, 1]`, and feeding that score to the aggregator yields an
overall sentiment of `1.5` as well — contradicting the `(-1 ~ 1)` range
the own dataclass comment of `SentimentResult` documents. -/
theorem C2_range_violation :
    (analyze_news_sentiment (some { articles := some [{ title := "9만전자" }] })).sentiment
      = 3/2 ∧
    1 < (analyze_news_sentiment
      (some { articles := some [{ title := "9만전자" }] })).sentiment ∧
    calculate_weighted_sentiment
        [("news", analyze_news_sentiment
          (some { articles := some [{ title := "9만전자" }] }))] = 3/2 := by
  rw [analyze_news_sentiment_nine]
  refine ⟨rfl, by norm_num, ?_⟩
  simp [calculate_weighted_sentiment, effective_weight, weightOf]
  norm_num [pyRound2, roundHalfEven]

/-- A phrase is only ever emitted by `_extract_key_factors` for a source
whose `abs(sentiment)` exceeds `0.3` and whose name is one of the four
carrying a template branch. -/
theorem factorPhrase_some_imp {p : String × SourceScore} {f : String}
    (h : factorPhrase p = some f) :
    3/10 < |p.2.sentiment| ∧
    (p.1 = "disclosure" ∨ p.1 = "news" ∨ p.1 = "reddit" ∨ p.1 = "stocktwits") := by
  unfold factorPhrase at h
  split_ifs at h with h1 h2 h3 h4 h5 <;> exact ⟨h1, by tauto⟩

/-- Counterexample for C6: a lone `financial` source of sentiment `0.9`
and confidence `1` ranks first and qualifies by `|sentiment| > 0.3`, yet
the code emits no phrase for it — `key_factors` is empty, where the
claim requires one entry naming the source. -/
theorem C6_counterexample :
    extract_key_factors [("financial", { sentiment := 9/10, confidence := 1 })] = [] ∧
    (3/10 : ℚ) < |(9/10 : ℚ)| ∧
    factorImpact ("financial", { sentiment := 9/10, confidence := 1 }) = 9/10 := by
  have habs : |(9/10 : ℚ)| = 9/10 := abs_of_pos (by norm_num)
  refine ⟨?_, by rw [habs]; norm_num, by norm_num [factorImpact, habs]⟩
  unfold extract_key_factors
  rw [List.mergeSort_singleton]
  simp [factorPhrase]

/-- C6 (corrected): `key_factors` ranks the map entries by
`|sentiment| × confidence` descending, takes the top 3 and emits a
phrase for each qualifying one, but only the sources `disclosure`,
`news`, `reddit`, `stocktwits` carry a phrase branch — a `financial` or
`twitter` entry in the top 3 is skipped even when it qualifies.
Consequently `key_factors` never exceeds 3 entries, never has an entry
for a source with `|sentiment| ≤ 0.3`, and is never padded. -/
theorem C6_key_factors (l : List (String × SourceScore)) :
    (extract_key_factors l).length ≤ 3 ∧
    ∀ f ∈ extract_key_factors l, ∃ p, p ∈ l ∧
      factorPhrase p = some f ∧ 3/10 < |p.2.sentiment| ∧
      (p.1 = "disclosure" ∨ p.1 = "news" ∨ p.1 = "reddit" ∨ p.1 = "stocktwits") := by
  constructor
  · calc (extract_key_factors l).length
        ≤ ((l.mergeSort (fun a b => decide (factorImpact b ≤ factorImpact a))).take 3).length :=
          List.length_filterMap_le _ _
      _ ≤ 3 := List.length_take_le 3 _
  · intro f hf
    unfold extract_key_factors at hf
    obtain ⟨p, hp, hps⟩ := List.mem_filterMap.mp hf
    obtain ⟨hq, hkind⟩ := factorPhrase_some_imp hps
    exact ⟨p, (List.mem_mergeSort).mp (List.mem_of_mem_take hp), hps, hq, hkind⟩

/-- Witness for C6: the bound applied at a concrete qualifying map. -/
theorem C6_key_factors_witness :
    (extract_key_factors [("news", { sentiment := 1/2, confidence := 1 })]).length ≤ 3 :=
  (C6_key_factors [("news", { sentiment := 1/2, confidence := 1 })]).1

/-- The engagement components of the per-post pairs built by
`_calculate_social_platform_sentiment` sum to the total engagement. -/
theorem social_pairs_engagement (posts : List Post) :
    ((posts.map (fun post => (postSentimentOf post, post.score + post.comments))).map
      (fun q => q.2)).sum = totalEngagement posts := by
  rw [List.map_map]
  rfl

/-- The weighted terms of the per-post pairs rewritten over the posts. -/
theorem social_pairs_weighted (posts : List Post) :
    ((posts.map (fun post => (postSentimentOf post, post.score + post.comments))).map
      (fun q => q.1 * (q.2 : ℚ))).sum =
    (posts.map (fun p => postSentimentOf p * ((p.score + p.comments : ℤ) : ℚ))).sum := by
  rw [List.map_map]
  rfl

/-- The sentiment components of the per-post pairs rewritten over the
posts. -/
theorem social_pairs_fst (posts : List Post) :
    ((posts.map (fun post => (postSentimentOf post, post.score + post.comments))).map
      (fun q => q.1)).sum = (posts.map postSentimentOf).sum := by
  rw [List.map_map]
  rfl

/-- Counterexample for C8: two posts of sentiments `1` and `0` at
engagements `1` and `2` have engagement-weighted average `1/3`, but the
code returns its two-decimal rounding `0.33`, not that average. -/
theorem C8_counterexample :
    (calculate_social_platform_sentiment
        [{ sentiment := some 1, score := 1 }, { sentiment := some 0, score := 2 }]).sentiment
      = 33/100 ∧
    ((1 : ℚ) * 1 + 0 * 2) / (1 + 2) = 1/3 ∧
    (33/100 : ℚ) ≠ 1/3 := by
  simp [calculate_social_platform_sentiment, postSentimentOf, totalEngagement]
  norm_num [pyRound2, roundHalfEven]

/-- C8 (corrected): for a nonempty post list the platform sentiment is
the engagement-weighted average (weight `score + comments` per post)
when total engagement is positive, and the unweighted mean of the
per-post sentiments when total engagement is zero — in both cases
rounded to two decimal places; an empty post list yields sentiment `0`
and confidence `0`. -/
theorem C8_social_sentiment (posts : List Post) (hne : posts ≠ []) :
    (0 < totalEngagement posts →
      (calculate_social_platform_sentiment posts).sentiment =
        pyRound2 ((posts.map (fun p => postSentimentOf p * ((p.score + p.comments : ℤ) : ℚ))).sum
          / ((totalEngagement posts : ℤ) : ℚ))) ∧
    (totalEngagement posts = 0 →
      (calculate_social_platform_sentiment posts).sentiment =
        pyRound2 ((posts.map postSentimentOf).sum / (posts.length : ℚ))) ∧
    (calculate_social_platform_sentiment []).sentiment = 0 ∧
    (calculate_social_platform_sentiment []).confidence = 0 := by
  match posts with
  | [] => exact absurd rfl hne
  | a :: as =>
    refine ⟨?_, ?_, rfl, rfl⟩
    · intro hpos
      simp only [calculate_social_platform_sentiment]
      rw [social_pairs_engagement, social_pairs_weighted, if_pos hpos]
    · intro h0
      simp only [calculate_social_platform_sentiment]
      rw [social_pairs_engagement, social_pairs_fst, h0, if_neg (lt_irrefl 0),
        if_neg (by simp), List.length_map]

/-- Witness for C8: the engagement-weighted case at the two concrete
posts of the counterexample. -/
theorem C8_social_sentiment_witness :
    (calculate_social_platform_sentiment
        [{ sentiment := some 1, score := 1 }, { sentiment := some 0, score := 2 }]).sentiment =
      pyRound2 (([({ sentiment := some 1, score := 1 } : Post),
          { sentiment := some 0, score := 2 }].map
            (fun p => postSentimentOf p * ((p.score + p.comments : ℤ) : ℚ))).sum
        / ((totalEngagement [{ sentiment := some 1, score := 1 },
            { sentiment := some 0, score := 2 }] : ℤ) : ℚ)) :=
  (C8_social_sentiment
    [{ sentiment := some 1, score := 1 }, { sentiment := some 0, score := 2 }]
    (by simp)).1 (by norm_num [totalEngagement])

/-- Witness for C7: the formula and range at a concrete two-source map. -/
theorem C7_confidence_witness :
    calculate_confidence
        [("disclosure", { sentiment := 4/5, confidence := 9/10 }),
         ("news", { sentiment := -(1/5), confidence := 1/2 })] =
      min 1 ((9/10 + 1/2) / 2 + min (3/10) (2 * (1/10))) := by
  have h := (C7_confidence
    [("disclosure", { sentiment := 4/5, confidence := 9/10 }),
     ("news", { sentiment := -(1/5), confidence := 1/2 })]
    (by simp) ?_).1 (by simp)
  · rw [h.1]
    norm_num
  · intro p hp
    simp only [List.mem_cons, List.mem_singleton] at hp
    rcases hp with h1 | h1 | h1
    · subst h1; norm_num
    · subst h1; norm_num
    · cases h1
